import Mathlib

/-!
Shallow embedding of `src/data/data_generate/data_generator.py`
(class `HybridCRMGenerator`), a synthetic CRM data pipeline:
lead generation, A/B group assignment, contact events, funnel stages,
outcomes, and data-quality fault injection.

Modelling conventions:
* timestamps are rationals, counted in days since 1970-01-01
  (`datetime` values carry a fractional day part; stored `.date()` values
  are the integer floor of the timestamp);
* every stochastic draw is an oracle input: a uniform `random.random()`
  draw is a rational `u` (the real library returns values in `[0,1)`),
  `random.randint(a,b)` maps an oracle natural through `a + u % (b-a+1)`,
  distribution-shaped draws (Poisson, exponential, lognormal, normal) and
  Faker string draws are given directly by the oracle;
* `uuid.uuid4()` identifier draws are a *separate* string oracle: in the
  source they read OS entropy and are not derived from the seeds;
* `datetime.now()` is an explicit parameter `now`.
-/

/-- A CRM lead record as built by `_generate_leads` (fields that the fault
injector may null out are `Option`s; the generator always emits them). -/
structure Lead where
  lead_id : String
  company_name : String
  contact_email : String
  contact_phone : Option String
  industry : String
  region : Option String
  source_channel : String
  company_size : String
  created_at : ℚ
  annual_revenue : ℚ
deriving DecidableEq

/-- A lead after `_add_test_group_logic`: the base record plus the
`group` label and the date-precision `assigned_at` column. -/
structure GLead where
  lead : Lead
  group : String
  assigned_at : ℤ
deriving DecidableEq

/-- A contact event record (`_generate_contact_events`).  `event_date` is
day-precision (`contact_date.date()`); `response_type` is an `Option`
because the fault injector can null it. -/
structure ContactEvent where
  event_id : String
  lead_id : String
  event_date : ℤ
  contact_type : String
  response_type : Option String
deriving DecidableEq

/-- A funnel stage record (`_generate_funnel_stages`).  `stage_order` is an
`Option ℤ` because the fault injector can null it or make it negative. -/
structure FunnelStage where
  stage_id : String
  lead_id : String
  stage_name : String
  stage_date : ℤ
  stage_order : Option ℤ
deriving DecidableEq

/-- An outcome record (`_generate_outcomes`).  `converted` is stored as
1/0 in the source; we use `Bool`.  `outcome_date` is an `Option` because
the fault injector can null it for converted records. -/
structure Outcome where
  outcome_id : String
  lead_id : String
  converted : Bool
  revenue : ℚ
  outcome_date : Option ℤ
  days_to_close : ℤ
deriving DecidableEq

/-- `random.randint(a, b)`: inclusive-range integer draw, driven by an
oracle natural `u`; always lands in `[a, b]` when `a ≤ b`. -/
def randint (a b : ℤ) (u : ℕ) : ℤ := a + (u % (b - a + 1).toNat : ℕ)

/-- `datetime(2024, 6, 1)` (the `test_start_date`), in days since
1970-01-01. -/
def testStartDate : ℚ := 19875

/-- Oracle bundle for one lead's draws in `_generate_leads`. -/
structure LeadDraws where
  /-- `fake.date_time_between(data_start_date, 2024-12-31)` result. -/
  created : ℚ
  /-- `random.random()` for the 85% weekend pull-back. -/
  wk_u : ℚ
  /-- oracle for `random.randint(1, 2)` pull-back amount. -/
  wk_pull : ℕ
  /-- uniform draw mapped through the size weights `[0.4,0.3,0.2,0.1]`. -/
  size_u : ℚ
  /-- `np.random.lognormal(15, 1.2)` result. -/
  lognormal : ℚ
  /-- `random.random()` for the 15% missing-phone rule. -/
  phone_u : ℚ
  company : String
  email : String
  phone : String
  industry : String
  region : String
  channel : String

/-- `created_at.weekday()` (Monday = 0): 1970-01-01 was a Thursday. -/
def pyWeekday (t : ℚ) : ℤ := (⌊t⌋ + 3) % 7

/-- `np.random.choice(['Small','Medium','Large','Enterprise'], p=[0.4,0.3,0.2,0.1])`
as a threshold map on a uniform draw. -/
def sizeChoice (u : ℚ) : String :=
  if u < 2/5 then "Small"
  else if u < 7/10 then "Medium"
  else if u < 9/10 then "Large"
  else "Enterprise"

/-- `size_multipliers = {'Small': 0.4, 'Medium': 0.7, 'Large': 1.0, 'Enterprise': 2.2}`
in `_generate_leads` (the fallback branch is unreachable there). -/
def sizeMultiplierLead (s : String) : ℚ :=
  if s = "Small" then 2/5
  else if s = "Medium" then 7/10
  else if s = "Large" then 1
  else if s = "Enterprise" then 11/5
  else 0

/-- Build one lead record from its uuid draw and its oracle bundle
(the body of the `_generate_leads` loop). -/
def mkLead (uuid : String) (d : LeadDraws) : Lead :=
  let c0 := d.created
  let created := if pyWeekday c0 ≥ 5 ∧ d.wk_u < 17/20
    then c0 - (randint 1 2 d.wk_pull : ℚ) else c0
  let size := sizeChoice d.size_u
  { lead_id := uuid
    company_name := d.company
    contact_email := d.email
    contact_phone := if d.phone_u > 3/20 then some d.phone else none
    industry := d.industry
    region := some d.region
    source_channel := d.channel
    company_size := size
    created_at := created
    annual_revenue := d.lognormal * sizeMultiplierLead size }

/-- `_generate_leads`: one record per index in `range(total_leads)`. -/
def generateLeads (uuid : ℕ → String) (d : ℕ → LeadDraws) (n : ℕ) : List Lead :=
  (List.range n).map fun i => mkLead (uuid i) (d i)

/-- The `pre_test_leads` block of `_add_test_group_logic`: rows with
`created_at < test_start_date`, all labelled `control` with no draw.
`assigned_at` is the creation date at day precision. -/
def preTestAssigned (testStart : ℚ) (leads : List Lead) : List GLead :=
  (leads.filter fun l => decide (l.created_at < testStart)).map
    fun l => { lead := l, group := "control", assigned_at := ⌊l.created_at⌋ }

/-- The `test_period_leads` block of `_add_test_group_logic`: rows with
`created_at >= test_start_date`, each labelled by the fresh 50/50 draw
(`np.random.choice` with `p=[0.5,0.5]`, re-seeded with the fixed sub-seed
42) at its position in the block. -/
def postTestAssigned (assign_u : ℕ → ℚ) (testStart : ℚ) (leads : List Lead) :
    List GLead :=
  (leads.filter fun l => decide (testStart ≤ l.created_at)).enum.map fun p =>
    { lead := p.2
      group := if assign_u p.1 < 1/2 then "control" else "test"
      assigned_at := ⌊p.2.created_at⌋ }

/-- `_add_test_group_logic`: the two blocks combined, pre-cutover rows
first (`pd.concat([pre_test_leads, test_period_leads])`). -/
def addTestGroupLogic (assign_u : ℕ → ℚ) (testStart : ℚ) (leads : List Lead) :
    List GLead :=
  preTestAssigned testStart leads ++ postTestAssigned assign_u testStart leads

/-- Oracle bundle for one contact event's draws inside the
`for contact_num in range(num_contacts)` loop of `_generate_contact_events`. -/
structure EventDraws where
  /-- the record's `uuid.uuid4()` identifier. -/
  eid : String
  /-- oracle for the `random.randint` day-offset draw of this event. -/
  off_u : ℕ
  /-- uniform draw for the first event's 70/30 Email vs Phone Call choice. -/
  firstType_u : ℚ
  /-- `np.random.choice(self.contact_types)` result for later events. -/
  type : String
  /-- `random.random()` response Bernoulli. -/
  resp_u : ℚ
  /-- uniform draw mapped through `p=[0.5,0.3,0.2]` for the positive
  response category. -/
  respType_u : ℚ

/-- Oracle bundle for one lead's draws in `_generate_contact_events`. -/
structure ContactDraws where
  /-- `random.random()` contacted Bernoulli. -/
  contact_u : ℚ
  /-- `int(np.random.poisson(avg_contacts))` result (the group-dependent
  mean only shapes the distribution, which the oracle realizes). -/
  poisson : ℕ
  /-- per-event draws. -/
  ev : ℕ → EventDraws

/-- `base_response_prob` lookup with the `.get(contact_type, 0.2)` fallback. -/
def baseResponseProb (t : String) : ℚ :=
  if t = "Email" then 1/4
  else if t = "Phone Call" then 7/20
  else if t = "LinkedIn Message" then 3/20
  else if t = "Demo Request" then 13/20
  else 1/5

/-- The widening day-offset draw of `_generate_contact_events`:
`randint(0,2)` for the first event, `randint(1,7)` for the second,
`randint(7,30)` for later events. -/
def offsetDraw (u : ℕ) (k : ℕ) : ℤ :=
  if k = 0 then randint 0 2 u
  else if k = 1 then randint 1 7 u
  else randint 7 30 u

/-- The events emitted for one contacted lead (the inner loop of
`_generate_contact_events`): per event, the widening day offset, a skip
when the date is after `now`, the channel choice, and the response draw. -/
def eventsForLead (now : ℚ) (g : GLead) (cd : ContactDraws) : List ContactEvent :=
  let boost : ℚ := if g.group = "test" then 7/5 else 1
  let num := max 1 cd.poisson
  (List.range num).filterMap fun k =>
    let ed := cd.ev k
    let off : ℤ := offsetDraw ed.off_u k
    let cdate := g.lead.created_at + (off : ℚ)
    if now < cdate then none
    else
      let ctype := if k = 0
        then (if ed.firstType_u < 7/10 then "Email" else "Phone Call")
        else ed.type
      let rtype := if ed.resp_u < baseResponseProb ctype * boost then
          (if ed.respType_u < 1/2 then "Responded"
           else if ed.respType_u < 4/5 then "Interested"
           else "Callback Requested")
        else "No Response"
      some { event_id := ed.eid, lead_id := g.lead.lead_id,
             event_date := ⌊cdate⌋, contact_type := ctype,
             response_type := some rtype }

/-- The contacted-lead-identifier set built by `_generate_contact_events`
(a lead is added on its contacted Bernoulli success, before any of its
events are generated; membership therefore does not depend on how many
events survive the future-date filter).  Listed in lead order. -/
def contactedOf (co : ℕ → ContactDraws) (gleads : List GLead) : List String :=
  gleads.enum.filterMap fun p =>
    if (co p.1).contact_u < (if p.2.group = "test" then (9:ℚ)/10 else 17/20)
    then some p.2.lead.lead_id else none

/-- `_generate_contact_events`: the event stream together with the
contacted-lead-identifier set. -/
def generateContactEvents (now : ℚ) (co : ℕ → ContactDraws)
    (gleads : List GLead) : List ContactEvent × List String :=
  (gleads.enum.flatMap fun p =>
    if (co p.1).contact_u < (if p.2.group = "test" then (9:ℚ)/10 else 17/20)
    then eventsForLead now p.2 (co p.1) else [],
   contactedOf co gleads)

/-- Oracle bundle for one lead's draws in `_generate_funnel_stages`. -/
structure FunnelDraws where
  /-- `random.random()` funnel-entry Bernoulli. -/
  entry_u : ℚ
  /-- per-stage `random.random()` Bernoulli draws. -/
  stage_u : ℕ → ℚ
  /-- per-stage `np.random.exponential` delay draws (the source evaluates
  all five dict entries each iteration and keeps one; the kept value is an
  independent exponential draw, which the oracle realizes). -/
  delay : ℕ → ℚ
  /-- per-stage `uuid.uuid4()` identifiers. -/
  sid : ℕ → String

/-- The walked stage list `['Contacted', 'Qualified', 'Demo Scheduled',
'Proposal Sent', 'Closed Won']` by 0-based index. -/
def stageNameOf (j : ℕ) : String :=
  if j = 0 then "Contacted"
  else if j = 1 then "Qualified"
  else if j = 2 then "Demo Scheduled"
  else if j = 3 then "Proposal Sent"
  else "Closed Won"

/-- `stage_probabilities` by 0-based stage index; the last entry is the
group-dependent `outcome_rate`. -/
def stageProb (outcomeRate : ℚ) (j : ℕ) : ℚ :=
  if j = 0 then 1
  else if j = 1 then 9/10
  else if j = 2 then 4/5
  else if j = 3 then 3/4
  else outcomeRate

/-- One funnel stage record as emitted at 0-based stage index `j`
(`stage_order = stage_order + 1` with `enumerate(..., 1)`, hence `j + 2`;
the stored date is `stage_date.date()`). -/
def mkStageRec (createdAt : ℚ) (leadId : String) (fd : FunnelDraws) (j : ℕ) :
    FunnelStage :=
  { stage_id := fd.sid j, lead_id := leadId, stage_name := stageNameOf j,
    stage_date := ⌊createdAt + fd.delay j⌋, stage_order := some ((j : ℤ) + 2) }

/-- The `for stage_order, stage in enumerate([...], 1)` loop of
`_generate_funnel_stages` over the remaining 0-based stage indices.
On a failed Bernoulli draw the loop breaks; on a success the stage date is
`current_date + exponential delay` where `current_date` is the lead
creation time (the source never reassigns `current_date`), and the record
is emitted only when that date is not after `now` — a future date does
*not* break the loop. -/
def walkFrom (now createdAt : ℚ) (leadId : String) (orate : ℚ)
    (fd : FunnelDraws) : List ℕ → List FunnelStage
  | [] => []
  | j :: rest =>
    if fd.stage_u j < stageProb orate j then
      (if createdAt + fd.delay j ≤ now then [mkStageRec createdAt leadId fd j]
       else [])
      ++ walkFrom now createdAt leadId orate fd rest
    else []

/-- `_generate_funnel_stages`: leads outside the contacted set are skipped;
contacted leads enter the funnel when the entry draw is not above the
group's entry rate (`if random.random() > funnel_entry_rate: continue`),
then walk the five-stage list. -/
def generateFunnelStages (now : ℚ) (fo : ℕ → FunnelDraws)
    (contacted : List String) (gleads : List GLead) : List FunnelStage :=
  gleads.enum.flatMap fun p =>
    if p.2.lead.lead_id ∈ contacted then
      if (fo p.1).entry_u > (if p.2.group = "test" then (7:ℚ)/10 else 13/20) then []
      else walkFrom now p.2.lead.created_at p.2.lead.lead_id
        (if p.2.group = "test" then (3:ℚ)/5 else 27/50) (fo p.1) [0, 1, 2, 3, 4]
    else []

/-- `funnel_stages_df[funnel_stages_df['stage_name'] == 'Closed Won']['lead_id'].unique()`:
lead identifiers with a Closed Won stage, first occurrence kept, in order. -/
def uniqueFirst : List String → List String
  | [] => []
  | x :: xs => x :: uniqueFirst (xs.filter fun y => y ≠ x)
termination_by l => l.length
decreasing_by simpa using Nat.lt_succ_of_le (List.length_filter_le _ _)

/-- The `closed_won_leads` list of `_generate_outcomes`. -/
def closedWonLeadIds (stages : List FunnelStage) : List String :=
  uniqueFirst ((stages.filter fun s => s.stage_name = "Closed Won").map (·.lead_id))

/-- Oracle bundle for one converted (Closed Won) outcome. -/
structure WonDraws where
  /-- the record's `uuid.uuid4()` identifier. -/
  oid : String
  /-- `np.random.normal(1.3, 0.2)` (test) or `np.random.normal(1.0, 0.2)`
  (control) revenue multiplier. -/
  revMult : ℚ

/-- Oracle bundle for one candidate lost outcome. -/
structure LostDraws where
  /-- the record's `uuid.uuid4()` identifier. -/
  oid : String
  /-- `random.random()` for the 40% formal-lost Bernoulli. -/
  lost_u : ℚ
  /-- oracle for `random.randint(30, 120)`. -/
  days_u : ℕ

/-- `size_multipliers = {'Small': 1.0, 'Medium': 1.5, 'Large': 2.5, 'Enterprise': 4.0}`
with the `.get(company_size, 1.0)` fallback, in `_generate_outcomes`. -/
def sizeMultiplierOutcome (s : String) : ℚ :=
  if s = "Small" then 1
  else if s = "Medium" then 3/2
  else if s = "Large" then 5/2
  else if s = "Enterprise" then 4
  else 1

/-- The converted-outcome loop of `_generate_outcomes`: one outcome per
Closed Won lead.  `leads_df[...].iloc[0]` and the stage `.iloc[0]` lookups
are `find?`; in the pipeline both always succeed (a failure would raise in
the source, modelled as no emission).  `days_to_close` is the
`(outcome_date - lead_start).days` floor, clamped to a minimum of 1;
revenue is the size-multiplied base times the normal multiplier, floored
at the 5000 minimum deal size. -/
def wonOutcomeFor (wo : ℕ → WonDraws) (gleads : List GLead)
    (stages : List FunnelStage) (k : ℕ) (lid : String) : Option Outcome :=
  (gleads.find? fun g => g.lead.lead_id = lid).bind fun g =>
  (stages.find? fun s => s.lead_id = lid ∧ s.stage_name = "Closed Won").bind fun st =>
    some { outcome_id := (wo k).oid
           lead_id := lid
           converted := true
           revenue := max 5000 ((25000 * sizeMultiplierOutcome g.lead.company_size) * (wo k).revMult)
           outcome_date := some st.stage_date
           days_to_close := max 1 ⌊(st.stage_date : ℚ) - g.lead.created_at⌋ }

/-- The converted-outcome list: one candidate per Closed Won lead, in order. -/
def wonOutcomes (wo : ℕ → WonDraws) (gleads : List GLead)
    (stages : List FunnelStage) : List Outcome :=
  (closedWonLeadIds stages).enum.filterMap fun p =>
    wonOutcomeFor wo gleads stages p.1 p.2

/-- `funnel_but_not_converted` of `_generate_outcomes`: leads with at
least one funnel stage record but no Closed Won stage.  The source holds
these in a Python set whose iteration order is interpreter-defined; the
embedding fixes first-appearance order. -/
def lostCandidates (stages : List FunnelStage) : List String :=
  (uniqueFirst (stages.map (·.lead_id))).filter fun lid =>
    lid ∉ closedWonLeadIds stages

/-- The lost-outcome loop of `_generate_outcomes`: each candidate draws
the 40% Bernoulli; on success the outcome is dated a uniform
`randint(30, 120)` days after lead creation and emitted only when that
date is not after `now`. -/
def lostOutcomeFor (now : ℚ) (lo : ℕ → LostDraws) (gleads : List GLead)
    (k : ℕ) (lid : String) : Option Outcome :=
  if (lo k).lost_u < 2/5 then
    (gleads.find? fun g => g.lead.lead_id = lid).bind fun g =>
      if g.lead.created_at + (randint 30 120 (lo k).days_u : ℚ) ≤ now then
        some { outcome_id := (lo k).oid, lead_id := lid,
               converted := false, revenue := 0,
               outcome_date := some ⌊g.lead.created_at + (randint 30 120 (lo k).days_u : ℚ)⌋,
               days_to_close := randint 30 120 (lo k).days_u }
      else none
  else none

/-- The formal-lost-outcome list: one candidate per funnel lead without a
Closed Won stage, in order. -/
def lostOutcomes (now : ℚ) (lo : ℕ → LostDraws) (gleads : List GLead)
    (stages : List FunnelStage) : List Outcome :=
  (lostCandidates stages).enum.filterMap fun p =>
    lostOutcomeFor now lo gleads p.1 p.2

/-- `_generate_outcomes`: converted outcomes first, then the formal lost
outcomes, as the source appends them to one list. -/
def generateOutcomes (now : ℚ) (wo : ℕ → WonDraws) (lo : ℕ → LostDraws)
    (gleads : List GLead) (stages : List FunnelStage) : List Outcome :=
  wonOutcomes wo gleads stages ++ lostOutcomes now lo gleads stages

/-- `np.random.choice` over a fixed list, driven by an oracle natural. -/
def pick {α : Type} (l : List α) (dflt : α) (u : ℕ) : α :=
  l.getD (u % l.length) dflt

/-- The `test_names` list of `_introduce_data_quality_issues_leads`. -/
def testCompanyNames : List String :=
  ["Test Company Inc", "Delete This Company", "Sample Corp LLC", "Test Data Corp"]

/-- The `extension_formats` list. -/
def extensionFormats : List String :=
  [" x123", " ext 456", " extension 789", " x1001"]

/-- `['2025-01-15 10:00:00', '2025-02-20 14:30:00', '2025-03-10 09:15:00']`
as day-since-1970 timestamps. -/
def futureCreatedDates : List ℚ :=
  [20103 + 5/12, 20139 + 29/48, 20157 + 37/96]

/-- `extreme_values = [-500000, 999999999, 50000000, -100000]`. -/
def extremeRevenues : List ℚ := [-500000, 999999999, 50000000, -100000]

/-- `size_variations` lowercase map (identity off the four sizes, matching
`if original_size in size_variations`). -/
def lowerSize (s : String) : String :=
  if s = "Small" then "small"
  else if s = "Medium" then "medium"
  else if s = "Large" then "large"
  else if s = "Enterprise" then "enterprise"
  else s

/-- Oracle for `_introduce_data_quality_issues_leads`: per rule, the
sampled row-index set (`df.sample(frac=...)`) as a predicate, plus the
replacement-value choices. -/
structure LeadQualityDraws where
  sTest : ℕ → Bool
  vTest : ℕ → ℕ
  sPhone : ℕ → Bool
  vPhone : ℕ → ℕ
  sRegion : ℕ → Bool
  sCase : ℕ → Bool
  sFuture : ℕ → Bool
  vFuture : ℕ → ℕ
  sOutlier : ℕ → Bool
  vOutlier : ℕ → ℕ

/-- The six corruption rules of `_introduce_data_quality_issues_leads`
applied to row `i`, in source order (rule 2 only touches rows whose phone
is non-null, matching the `phone_mask` restriction). -/
def corruptLeadAt (q : LeadQualityDraws) (i : ℕ) (g : GLead) : GLead :=
  let l := g.lead
  let l := if q.sTest i then
    { l with company_name := pick testCompanyNames "" (q.vTest i) } else l
  let l := if q.sPhone i then
    { l with contact_phone :=
        l.contact_phone.map (· ++ pick extensionFormats "" (q.vPhone i)) } else l
  let l := if q.sRegion i then { l with region := none } else l
  let l := if q.sCase i then { l with company_size := lowerSize l.company_size } else l
  let l := if q.sFuture i then
    { l with created_at := pick futureCreatedDates 0 (q.vFuture i) } else l
  let l := if q.sOutlier i then
    { l with annual_revenue := pick extremeRevenues 0 (q.vOutlier i) } else l
  { g with lead := l }

/-- `_introduce_data_quality_issues_leads` on the whole stream. -/
def introduceDataQualityIssuesLeads (q : LeadQualityDraws) (gl : List GLead) :
    List GLead :=
  gl.enum.map fun p => corruptLeadAt q p.1 p.2

/-- `type_variations` of `_introduce_data_quality_issues_contacts`, with
the `.get(original, [original.lower()])` fallback. -/
def contactTypeVariations (t : String) : List String :=
  if t = "Email" then ["email", "Email"]
  else if t = "Phone Call" then ["call", "phone call", "Phone Call"]
  else if t = "LinkedIn Message" then ["linkedin", "LinkedIn", "LinkedIn Message"]
  else if t = "Demo Request" then ["demo request"]
  else [t.toLower]

/-- `['2025-02-01', '2025-01-25', '2025-03-15']` as day numbers. -/
def futureEventDates : List ℤ := [20120, 20113, 20162]

/-- Oracle for `_introduce_data_quality_issues_contacts`. -/
structure ContactQualityDraws where
  sMissing : ℕ → Bool
  sCase : ℕ → Bool
  vCase : ℕ → ℕ
  sFuture : ℕ → Bool
  vFuture : ℕ → ℕ
  sEmpty : ℕ → Bool

/-- The four corruption rules of `_introduce_data_quality_issues_contacts`
applied to row `i`, in source order. -/
def corruptContactAt (q : ContactQualityDraws) (i : ℕ) (e : ContactEvent) :
    ContactEvent :=
  let e := if q.sMissing i then { e with response_type := none } else e
  let e := if q.sCase i then
    { e with contact_type := pick (contactTypeVariations e.contact_type) e.contact_type (q.vCase i) }
    else e
  let e := if q.sFuture i then
    { e with event_date := pick futureEventDates 0 (q.vFuture i) } else e
  let e := if q.sEmpty i then { e with response_type := some "" } else e
  e

/-- `_introduce_data_quality_issues_contacts` on the whole stream. -/
def introduceDataQualityIssuesContacts (q : ContactQualityDraws)
    (ev : List ContactEvent) : List ContactEvent :=
  ev.enum.map fun p => corruptContactAt q p.1 p.2

/-- `invalid_orders = [-1, 0, 8, 99, -5]`. -/
def invalidStageOrders : List ℤ := [-1, 0, 8, 99, -5]

/-- `name_variations` of `_introduce_data_quality_issues_funnel`, with the
`.get(original_name, [original_name.lower()])` fallback. -/
def stageNameVariations (s : String) : List String :=
  if s = "New" then ["new lead", "initial", "new"]
  else if s = "Contacted" then ["contacted"]
  else if s = "Qualified" then ["qualified", "mql", "marketing qualified"]
  else if s = "Demo Scheduled" then ["demo", "demo scheduled"]
  else if s = "Proposal Sent" then ["proposal", "quote", "quote sent"]
  else if s = "Closed Won" then ["closed won", "won", "closed-won"]
  else if s = "Closed Lost" then ["closed lost", "lost", "closed-lost"]
  else [s.toLower]

/-- `['2025-01-30', '2025-02-15']` as day numbers. -/
def futureStageDates : List ℤ := [20118, 20134]

/-- Oracle for `_introduce_data_quality_issues_funnel`. -/
structure FunnelQualityDraws where
  sOrder : ℕ → Bool
  vOrder : ℕ → ℕ
  sName : ℕ → Bool
  vName : ℕ → ℕ
  sFuture : ℕ → Bool
  vFuture : ℕ → ℕ
  sMissing : ℕ → Bool

/-- The four corruption rules of `_introduce_data_quality_issues_funnel`
applied to row `i`, in source order (the `if idx < len(df)` guard of rule
2 always holds for sampled indices). -/
def corruptFunnelAt (q : FunnelQualityDraws) (i : ℕ) (s : FunnelStage) :
    FunnelStage :=
  let s := if q.sOrder i then
    { s with stage_order := some (pick invalidStageOrders 0 (q.vOrder i)) } else s
  let s := if q.sName i then
    { s with stage_name := pick (stageNameVariations s.stage_name) s.stage_name (q.vName i) }
    else s
  let s := if q.sFuture i then
    { s with stage_date := pick futureStageDates 0 (q.vFuture i) } else s
  let s := if q.sMissing i then { s with stage_order := none } else s
  s

/-- `_introduce_data_quality_issues_funnel` on the whole stream. -/
def introduceDataQualityIssuesFunnel (q : FunnelQualityDraws)
    (st : List FunnelStage) : List FunnelStage :=
  st.enum.map fun p => corruptFunnelAt q p.1 p.2

/-- `extreme_values = [999999999, 50000000, 2500000]` for outcomes. -/
def extremeOutcomeRevenues : List ℚ := [999999999, 50000000, 2500000]

/-- `extreme_days = [800, 1000, 1500, 999]`. -/
def extremeDaysValues : List ℤ := [800, 1000, 1500, 999]

/-- Oracle for `_introduce_data_quality_issues_outcomes`. -/
structure OutcomeQualityDraws where
  sNeg : ℕ → Bool
  sExtreme : ℕ → Bool
  vExtreme : ℕ → ℕ
  sNegDays : ℕ → Bool
  sIncons : ℕ → Bool
  sExtremeDays : ℕ → Bool
  vExtremeDays : ℕ → ℕ
  sMissingDate : ℕ → Bool

/-- Rule 1 of `_introduce_data_quality_issues_outcomes`: negative revenue. -/
def outcomeRule1 (q : OutcomeQualityDraws) (i : ℕ) (o : Outcome) : Outcome :=
  if q.sNeg i then { o with revenue := -|o.revenue| } else o

/-- Rule 2: extreme revenue outliers. -/
def outcomeRule2 (q : OutcomeQualityDraws) (i : ℕ) (o : Outcome) : Outcome :=
  if q.sExtreme i then
    { o with revenue := pick extremeOutcomeRevenues 0 (q.vExtreme i) } else o

/-- Rule 3: negative days to close. -/
def outcomeRule3 (q : OutcomeQualityDraws) (i : ℕ) (o : Outcome) : Outcome :=
  if q.sNegDays i then { o with days_to_close := -|o.days_to_close| } else o

/-- Rule 4: inconsistent conversion/revenue logic. -/
def outcomeRule4 (q : OutcomeQualityDraws) (i : ℕ) (o : Outcome) : Outcome :=
  if q.sIncons i then
    { o with revenue := if o.converted then 0 else 50000 } else o

/-- Rule 5: extreme days to close. -/
def outcomeRule5 (q : OutcomeQualityDraws) (i : ℕ) (o : Outcome) : Outcome :=
  if q.sExtremeDays i then
    { o with days_to_close := pick extremeDaysValues 0 (q.vExtremeDays i) } else o

/-- Rule 6: missing outcome dates, only where `converted == 1` (matching
the post-sample filter). -/
def outcomeRule6 (q : OutcomeQualityDraws) (i : ℕ) (o : Outcome) : Outcome :=
  if q.sMissingDate i ∧ o.converted then { o with outcome_date := none } else o

/-- The six corruption rules of `_introduce_data_quality_issues_outcomes`
applied to row `i`, in source order. -/
def corruptOutcomeAt (q : OutcomeQualityDraws) (i : ℕ) (o : Outcome) : Outcome :=
  outcomeRule6 q i (outcomeRule5 q i (outcomeRule4 q i (outcomeRule3 q i
    (outcomeRule2 q i (outcomeRule1 q i o)))))

/-- `_introduce_data_quality_issues_outcomes` on the whole stream. -/
def introduceDataQualityIssuesOutcomes (q : OutcomeQualityDraws)
    (os : List Outcome) : List Outcome :=
  os.enum.map fun p => corruptOutcomeAt q p.1 p.2

/-- All seeded-randomness oracles of one run (conceptually, the values the
seeded `random` / `np.random` / Faker streams produce for the given seed). -/
structure PipelineOracles where
  leadDraws : ℕ → LeadDraws
  assign_u : ℕ → ℚ
  contact : ℕ → ContactDraws
  funnel : ℕ → FunnelDraws
  won : ℕ → WonDraws
  lost : ℕ → LostDraws
  qLeads : LeadQualityDraws
  qContacts : ContactQualityDraws
  qFunnel : FunnelQualityDraws
  qOutcomes : OutcomeQualityDraws

/-- The in-memory result bundle of `generate_complete_dataset`. -/
structure Dataset where
  leads : List GLead
  contact_events : List ContactEvent
  funnel_stages : List FunnelStage
  outcomes : List Outcome
deriving DecidableEq

/-- `generate_complete_dataset` (persistence and console output are
external and not modelled): leads, group assignment, contact events,
funnel stages, outcomes, then the four fault-injection passes.  `uuid`
is the lead-identifier entropy stream; the other record identifiers sit
in their oracle bundles and are likewise uuid4 draws in the source. -/
def generateCompleteDataset (now : ℚ) (uuid : ℕ → String)
    (o : PipelineOracles) (n : ℕ) : Dataset :=
  let leads := generateLeads uuid o.leadDraws n
  let gleads := addTestGroupLogic o.assign_u testStartDate leads
  let ec := generateContactEvents now o.contact gleads
  let stages := generateFunnelStages now o.funnel ec.2 gleads
  let outs := generateOutcomes now o.won o.lost gleads stages
  { leads := introduceDataQualityIssuesLeads o.qLeads gleads
    contact_events := introduceDataQualityIssuesContacts o.qContacts ec.1
    funnel_stages := introduceDataQualityIssuesFunnel o.qFunnel stages
    outcomes := introduceDataQualityIssuesOutcomes o.qOutcomes outs }

lemma corruptLeadAt_lead_id (q : LeadQualityDraws) (i : ℕ) (g : GLead) :
    (corruptLeadAt q i g).lead.lead_id = g.lead.lead_id := by
  unfold corruptLeadAt
  split_ifs <;> rfl

lemma corruptContactAt_ids (q : ContactQualityDraws) (i : ℕ) (e : ContactEvent) :
    (corruptContactAt q i e).event_id = e.event_id ∧
      (corruptContactAt q i e).lead_id = e.lead_id := by
  unfold corruptContactAt
  split_ifs <;> exact ⟨rfl, rfl⟩

lemma corruptFunnelAt_ids (q : FunnelQualityDraws) (i : ℕ) (s : FunnelStage) :
    (corruptFunnelAt q i s).stage_id = s.stage_id ∧
      (corruptFunnelAt q i s).lead_id = s.lead_id := by
  unfold corruptFunnelAt
  split_ifs <;> exact ⟨rfl, rfl⟩

lemma corruptOutcomeAt_ids (q : OutcomeQualityDraws) (i : ℕ) (o : Outcome) :
    (corruptOutcomeAt q i o).outcome_id = o.outcome_id ∧
      (corruptOutcomeAt q i o).lead_id = o.lead_id := by
  have r1 : ∀ x : Outcome, (outcomeRule1 q i x).outcome_id = x.outcome_id ∧
      (outcomeRule1 q i x).lead_id = x.lead_id := by
    intro x; unfold outcomeRule1; split <;> exact ⟨rfl, rfl⟩
  have r2 : ∀ x : Outcome, (outcomeRule2 q i x).outcome_id = x.outcome_id ∧
      (outcomeRule2 q i x).lead_id = x.lead_id := by
    intro x; unfold outcomeRule2; split <;> exact ⟨rfl, rfl⟩
  have r3 : ∀ x : Outcome, (outcomeRule3 q i x).outcome_id = x.outcome_id ∧
      (outcomeRule3 q i x).lead_id = x.lead_id := by
    intro x; unfold outcomeRule3; split <;> exact ⟨rfl, rfl⟩
  have r4 : ∀ x : Outcome, (outcomeRule4 q i x).outcome_id = x.outcome_id ∧
      (outcomeRule4 q i x).lead_id = x.lead_id := by
    intro x; unfold outcomeRule4; split <;> exact ⟨rfl, rfl⟩
  have r5 : ∀ x : Outcome, (outcomeRule5 q i x).outcome_id = x.outcome_id ∧
      (outcomeRule5 q i x).lead_id = x.lead_id := by
    intro x; unfold outcomeRule5; split <;> exact ⟨rfl, rfl⟩
  have r6 : ∀ x : Outcome, (outcomeRule6 q i x).outcome_id = x.outcome_id ∧
      (outcomeRule6 q i x).lead_id = x.lead_id := by
    intro x; unfold outcomeRule6; split <;> exact ⟨rfl, rfl⟩
  unfold corruptOutcomeAt
  constructor
  · rw [(r6 _).1, (r5 _).1, (r4 _).1, (r3 _).1, (r2 _).1, (r1 _).1]
  · rw [(r6 _).2, (r5 _).2, (r4 _).2, (r3 _).2, (r2 _).2, (r1 _).2]

/-- Claim C8: each Quality Fault Injector pass leaves all identifier
fields (`lead_id`, `event_id`, `stage_id`, `outcome_id`) of every record
in every one of the four entity streams unchanged, for any sampled index
sets and any replacement draws, so every corrupted record remains joinable
to the same parent lead it referenced before corruption. -/
theorem quality_injectors_preserve_ids (qL : LeadQualityDraws)
    (qC : ContactQualityDraws) (qF : FunnelQualityDraws)
    (qO : OutcomeQualityDraws) (gl : List GLead) (ev : List ContactEvent)
    (st : List FunnelStage) (os : List Outcome) :
    (introduceDataQualityIssuesLeads qL gl).map (fun g => g.lead.lead_id)
        = gl.map (fun g => g.lead.lead_id) ∧
    (introduceDataQualityIssuesContacts qC ev).map (fun e => (e.event_id, e.lead_id))
        = ev.map (fun e => (e.event_id, e.lead_id)) ∧
    (introduceDataQualityIssuesFunnel qF st).map (fun s => (s.stage_id, s.lead_id))
        = st.map (fun s => (s.stage_id, s.lead_id)) ∧
    (introduceDataQualityIssuesOutcomes qO os).map (fun o => (o.outcome_id, o.lead_id))
        = os.map (fun o => (o.outcome_id, o.lead_id)) := by
  refine ⟨?_, ?_, ?_, ?_⟩
  · unfold introduceDataQualityIssuesLeads
    rw [List.map_map]
    have h : ((fun g : GLead => g.lead.lead_id) ∘ fun p : ℕ × GLead => corruptLeadAt qL p.1 p.2)
        = (fun g : GLead => g.lead.lead_id) ∘ Prod.snd := by
      funext p
      exact corruptLeadAt_lead_id qL p.1 p.2
    rw [h, ← List.map_map, List.enum_map_snd]
  · unfold introduceDataQualityIssuesContacts
    rw [List.map_map]
    have h : ((fun e : ContactEvent => (e.event_id, e.lead_id))
          ∘ fun p : ℕ × ContactEvent => corruptContactAt qC p.1 p.2)
        = (fun e : ContactEvent => (e.event_id, e.lead_id)) ∘ Prod.snd := by
      funext p
      have := corruptContactAt_ids qC p.1 p.2
      simp only [Function.comp_apply, this.1, this.2]
    rw [h, ← List.map_map, List.enum_map_snd]
  · unfold introduceDataQualityIssuesFunnel
    rw [List.map_map]
    have h : ((fun s : FunnelStage => (s.stage_id, s.lead_id))
          ∘ fun p : ℕ × FunnelStage => corruptFunnelAt qF p.1 p.2)
        = (fun s : FunnelStage => (s.stage_id, s.lead_id)) ∘ Prod.snd := by
      funext p
      have := corruptFunnelAt_ids qF p.1 p.2
      simp only [Function.comp_apply, this.1, this.2]
    rw [h, ← List.map_map, List.enum_map_snd]
  · unfold introduceDataQualityIssuesOutcomes
    rw [List.map_map]
    have h : ((fun o : Outcome => (o.outcome_id, o.lead_id))
          ∘ fun p : ℕ × Outcome => corruptOutcomeAt qO p.1 p.2)
        = (fun o : Outcome => (o.outcome_id, o.lead_id)) ∘ Prod.snd := by
      funext p
      have := corruptOutcomeAt_ids qO p.1 p.2
      simp only [Function.comp_apply, this.1, this.2]
    rw [h, ← List.map_map, List.enum_map_snd]

lemma preTestAssigned_map_lead (ts : ℚ) (leads : List Lead) :
    (preTestAssigned ts leads).map (fun g => g.lead)
      = leads.filter (fun l => decide (l.created_at < ts)) := by
  unfold preTestAssigned
  rw [List.map_map]
  have h : ((fun g : GLead => g.lead) ∘ fun l : Lead =>
      ({ lead := l, group := "control", assigned_at := ⌊l.created_at⌋ } : GLead)) = id := by
    funext l
    rfl
  rw [h, List.map_id]

lemma postTestAssigned_map_lead (u : ℕ → ℚ) (ts : ℚ) (leads : List Lead) :
    (postTestAssigned u ts leads).map (fun g => g.lead)
      = leads.filter (fun l => decide (ts ≤ l.created_at)) := by
  unfold postTestAssigned
  rw [List.map_map]
  have h : ((fun g : GLead => g.lead) ∘ fun p : ℕ × Lead =>
      ({ lead := p.2, group := if u p.1 < 1/2 then "control" else "test",
         assigned_at := ⌊p.2.created_at⌋ } : GLead)) = Prod.snd := by
    funext p
    rfl
  rw [h, List.enum_map_snd]

lemma addTestGroupLogic_map_lead (u : ℕ → ℚ) (ts : ℚ) (leads : List Lead) :
    (addTestGroupLogic u ts leads).map (fun g => g.lead)
      = leads.filter (fun l => decide (l.created_at < ts))
        ++ leads.filter (fun l => decide (ts ≤ l.created_at)) := by
  unfold addTestGroupLogic
  rw [List.map_append, preTestAssigned_map_lead, postTestAssigned_map_lead]

/-- Claim C9: the Group Assigner's output is a re-partition of its input:
the multiset of underlying lead records is unchanged (no lead gained or
lost), and when the input identifiers are distinct no identifier appears
more than once in the output. -/
theorem group_assigner_repartition (u : ℕ → ℚ) (ts : ℚ) (leads : List Lead) :
    ((addTestGroupLogic u ts leads).map (fun g => g.lead)).Perm leads ∧
    ((leads.map (fun l => l.lead_id)).Nodup →
      ((addTestGroupLogic u ts leads).map (fun g => g.lead.lead_id)).Nodup) := by
  have hperm : ((addTestGroupLogic u ts leads).map (fun g => g.lead)).Perm leads := by
    rw [addTestGroupLogic_map_lead]
    have hc : (fun l : Lead => decide (ts ≤ l.created_at))
        = fun l : Lead => !decide (l.created_at < ts) := by
      funext l
      simp [← not_lt]
    rw [hc]
    exact List.filter_append_perm _ leads
  refine ⟨hperm, fun hnd => ?_⟩
  have h2 : (addTestGroupLogic u ts leads).map (fun g => g.lead.lead_id)
      = ((addTestGroupLogic u ts leads).map (fun g => g.lead)).map (fun l => l.lead_id) := by
    rw [List.map_map]
    rfl
  rw [h2]
  exact ((hperm.map (fun l => l.lead_id)).nodup_iff).mpr hnd

/-- With concrete data: two leads, one created before the test start and
one after, have their base records preserved by the Group Assigner and
distinct identifiers stay distinct. -/
theorem group_assigner_repartition_witness :
    (((addTestGroupLogic (fun _ => 3/4) testStartDate
        [{ lead_id := "a", company_name := "A", contact_email := "a@x", contact_phone := none,
           industry := "Tech", region := some "EU", source_channel := "Web",
           company_size := "Small", created_at := 100, annual_revenue := 1 },
         { lead_id := "b", company_name := "B", contact_email := "b@x", contact_phone := none,
           industry := "Tech", region := some "EU", source_channel := "Web",
           company_size := "Small", created_at := 20000, annual_revenue := 1 }]).map
      (fun g => g.lead.lead_id)).Nodup) := by
  have h := group_assigner_repartition (fun _ => 3/4) testStartDate
    [{ lead_id := "a", company_name := "A", contact_email := "a@x", contact_phone := none,
       industry := "Tech", region := some "EU", source_channel := "Web",
       company_size := "Small", created_at := 100, annual_revenue := 1 },
     { lead_id := "b", company_name := "B", contact_email := "b@x", contact_phone := none,
       industry := "Tech", region := some "EU", source_channel := "Web",
       company_size := "Small", created_at := 20000, annual_revenue := 1 }]
  exact h.2 (by simp)

lemma mem_preTestAssigned {ts : ℚ} {leads : List Lead} {g : GLead}
    (hg : g ∈ preTestAssigned ts leads) :
    g.group = "control" ∧ g.lead.created_at < ts := by
  rw [preTestAssigned, List.mem_map] at hg
  obtain ⟨l, hl, rfl⟩ := hg
  rw [List.mem_filter] at hl
  exact ⟨rfl, of_decide_eq_true hl.2⟩

lemma mem_postTestAssigned {u : ℕ → ℚ} {ts : ℚ} {leads : List Lead} {g : GLead}
    (hg : g ∈ postTestAssigned u ts leads) : ts ≤ g.lead.created_at := by
  rw [postTestAssigned, List.mem_map] at hg
  obtain ⟨p, hp, rfl⟩ := hg
  have hsnd := List.snd_mem_of_mem_enum hp
  rw [List.mem_filter] at hsnd
  exact of_decide_eq_true hsnd.2

lemma postTestAssigned_filter_pre (u : ℕ → ℚ) (ts : ℚ) (leads : List Lead) :
    (postTestAssigned u ts leads).filter
      (fun g => decide (g.lead.created_at < ts)) = [] := by
  rw [List.filter_eq_nil_iff]
  intro g hg
  simpa using not_lt.mpr (mem_postTestAssigned hg)

lemma preTestAssigned_length (ts : ℚ) (leads : List Lead) :
    (preTestAssigned ts leads).length
      = (leads.filter fun l => decide (l.created_at < ts)).length := by
  rw [preTestAssigned, List.length_map]

lemma postTestAssigned_getElem? (u : ℕ → ℚ) (ts : ℚ) (leads : List Lead) (i : ℕ) :
    (postTestAssigned u ts leads)[i]?
      = ((leads.filter (fun l => decide (ts ≤ l.created_at)))[i]?).map
          (fun l => { lead := l, group := if u i < 1/2 then "control" else "test",
                      assigned_at := ⌊l.created_at⌋ }) := by
  rw [postTestAssigned]
  simp only [List.getElem?_map, List.getElem?_enum, Option.map_map]
  rfl

/-- Claim C4: after group assignment, every lead created strictly before
the test start date is labelled `control` — and the pre-cutover part of
the output does not depend on the assignment draws at all (no random draw
consumed) — while the lead at post-cutover position `i` receives its label
from the fresh 50/50 draw `u i` (`control` below the 1/2 threshold,
`test` at or above it). -/
theorem group_assignment_rule (u u' : ℕ → ℚ) (ts : ℚ) (leads : List Lead) :
    (∀ g ∈ addTestGroupLogic u ts leads, g.lead.created_at < ts → g.group = "control") ∧
    ((addTestGroupLogic u ts leads).filter (fun g => decide (g.lead.created_at < ts))
      = (addTestGroupLogic u' ts leads).filter (fun g => decide (g.lead.created_at < ts))) ∧
    (∀ i : ℕ,
      (addTestGroupLogic u ts leads)[(leads.filter (fun l => decide (l.created_at < ts))).length + i]?
        = ((leads.filter (fun l => decide (ts ≤ l.created_at)))[i]?).map
            (fun l => { lead := l, group := if u i < 1/2 then "control" else "test",
                        assigned_at := ⌊l.created_at⌋ })) := by
  refine ⟨?_, ?_, ?_⟩
  · intro g hg hlt
    rw [addTestGroupLogic, List.mem_append] at hg
    rcases hg with hg | hg
    · exact (mem_preTestAssigned hg).1
    · exact absurd hlt (not_lt.mpr (mem_postTestAssigned hg))
  · rw [addTestGroupLogic, addTestGroupLogic, List.filter_append, List.filter_append,
      postTestAssigned_filter_pre, postTestAssigned_filter_pre]
  · intro i
    rw [addTestGroupLogic,
      List.getElem?_append_right (by rw [preTestAssigned_length]; exact Nat.le_add_right _ _),
      preTestAssigned_length, Nat.add_sub_cancel_left, postTestAssigned_getElem?]

/-- A concrete pre-cutover lead used by witnesses. -/
def sampleLeadA : Lead :=
  { lead_id := "a", company_name := "A", contact_email := "a@x",
    contact_phone := none, industry := "Tech", region := some "EU",
    source_channel := "Web", company_size := "Small", created_at := 100,
    annual_revenue := 1 }

/-- A concrete post-cutover lead used by witnesses. -/
def sampleLeadB : Lead :=
  { lead_id := "b", company_name := "B", contact_email := "b@x",
    contact_phone := none, industry := "Tech", region := some "EU",
    source_channel := "Web", company_size := "Small", created_at := 20000,
    annual_revenue := 1 }

/-- With concrete data: the pre-cutover lead is in the output labelled
`control`, as the group-assignment rule requires. -/
theorem group_assignment_rule_witness :
    ({ lead := sampleLeadA, group := "control", assigned_at := 100 } : GLead)
        ∈ addTestGroupLogic (fun _ => 3/4) testStartDate [sampleLeadA, sampleLeadB] ∧
    sampleLeadA.created_at < testStartDate ∧
    ({ lead := sampleLeadA, group := "control", assigned_at := 100 } : GLead).group
      = "control" := by
  have heval : addTestGroupLogic (fun _ => 3/4) testStartDate [sampleLeadA, sampleLeadB]
      = [{ lead := sampleLeadA, group := "control", assigned_at := 100 },
         { lead := sampleLeadB, group := "test", assigned_at := 20000 }] := by
    norm_num [addTestGroupLogic, preTestAssigned, postTestAssigned, sampleLeadA,
      sampleLeadB, testStartDate]
  have hmem : ({ lead := sampleLeadA, group := "control", assigned_at := 100 } : GLead)
      ∈ addTestGroupLogic (fun _ => 3/4) testStartDate [sampleLeadA, sampleLeadB] := by
    rw [heval]
    exact List.mem_cons_self _ _
  have hlt : sampleLeadA.created_at < testStartDate := by
    norm_num [sampleLeadA, testStartDate]
  exact ⟨hmem, hlt,
    (group_assignment_rule (fun _ => 3/4) (fun _ => 3/4) testStartDate
      [sampleLeadA, sampleLeadB]).1 _ hmem hlt⟩

lemma randint_nonneg (a b : ℤ) (u : ℕ) (ha : 0 ≤ a) : 0 ≤ randint a b u := by
  unfold randint
  exact add_nonneg ha (Int.natCast_nonneg _)

lemma floor_le_floor_add_randint (c : ℚ) (a b : ℤ) (u : ℕ) (ha : 0 ≤ a) :
    ⌊c⌋ ≤ ⌊c + (randint a b u : ℚ)⌋ :=
  Int.floor_le_floor (le_add_of_nonneg_right
    (by exact_mod_cast randint_nonneg a b u ha))

lemma mem_eventsForLead {now : ℚ} {g : GLead} {cd : ContactDraws}
    {e : ContactEvent} (he : e ∈ eventsForLead now g cd) :
    e.lead_id = g.lead.lead_id ∧ ⌊g.lead.created_at⌋ ≤ e.event_date := by
  rw [eventsForLead, List.mem_filterMap] at he
  obtain ⟨k, _, hk⟩ := he
  dsimp only at hk
  split at hk
  · exact Option.noConfusion hk
  · cases hk
    refine ⟨rfl, ?_⟩
    have hoff : (0 : ℤ) ≤ offsetDraw (cd.ev k).off_u k := by
      unfold offsetDraw
      split_ifs <;> exact randint_nonneg _ _ _ (by norm_num)
    exact Int.floor_le_floor (le_add_of_nonneg_right (by exact_mod_cast hoff))

/-- Claim C7: every contact event's lead identifier is the identifier of
some lead in the input population, and no event's date (day precision)
precedes its owning lead's creation date. -/
theorem contact_event_integrity (now : ℚ) (co : ℕ → ContactDraws)
    (gleads : List GLead) :
    ∀ e ∈ (generateContactEvents now co gleads).1,
      ∃ g ∈ gleads, e.lead_id = g.lead.lead_id ∧
        ⌊g.lead.created_at⌋ ≤ e.event_date := by
  intro e he
  rw [generateContactEvents] at he
  simp only [List.mem_flatMap] at he
  obtain ⟨p, hp, hin⟩ := he
  refine ⟨p.2, List.snd_mem_of_mem_enum hp, ?_⟩
  split at hin <;> split at hin <;>
    first
      | exact mem_eventsForLead hin
      | exact absurd hin (List.not_mem_nil e)

/-- A concrete grouped lead used by witnesses. -/
def sampleGLeadA : GLead :=
  { lead := sampleLeadA, group := "control", assigned_at := 100 }

/-- Concrete per-event draws used by witnesses. -/
def sampleEventDraws : EventDraws :=
  { eid := "e1", off_u := 0, firstType_u := 0, type := "Email",
    resp_u := 1, respType_u := 0 }

/-- Concrete per-lead contact draws used by witnesses: contacted, one
event at offset 0. -/
def sampleContactDraws : ContactDraws :=
  { contact_u := 0, poisson := 1, ev := fun _ => sampleEventDraws }

/-- The single event those draws generate for `sampleGLeadA`. -/
def sampleEvent : ContactEvent :=
  { event_id := "e1", lead_id := "a", event_date := 100,
    contact_type := "Email", response_type := some "No Response" }

/-- With concrete data: the single generated event belongs to the input
lead and is not dated before its creation date. -/
theorem contact_event_integrity_witness :
    sampleEvent ∈ (generateContactEvents 200 (fun _ => sampleContactDraws) [sampleGLeadA]).1 ∧
    ∃ g ∈ [sampleGLeadA], sampleEvent.lead_id = g.lead.lead_id ∧
      ⌊g.lead.created_at⌋ ≤ sampleEvent.event_date := by
  have hmem : sampleEvent
      ∈ (generateContactEvents 200 (fun _ => sampleContactDraws) [sampleGLeadA]).1 := by
    simp [generateContactEvents, eventsForLead, offsetDraw, sampleContactDraws,
      sampleEventDraws, sampleGLeadA, sampleLeadA, sampleEvent, baseResponseProb,
      randint, List.enum, List.enumFrom]
    norm_num
  exact ⟨hmem, contact_event_integrity 200 (fun _ => sampleContactDraws)
    [sampleGLeadA] _ hmem⟩

lemma walkFrom_eq_takeWhile_filterMap (now createdAt : ℚ) (lid : String)
    (orate : ℚ) (fd : FunnelDraws) (idxs : List ℕ) :
    walkFrom now createdAt lid orate fd idxs
      = (idxs.takeWhile fun j => decide (fd.stage_u j < stageProb orate j)).filterMap
          (fun j => if createdAt + fd.delay j ≤ now
            then some (mkStageRec createdAt lid fd j) else none) := by
  induction idxs with
  | nil => rfl
  | cons j rest ih =>
    rw [walkFrom, List.takeWhile_cons]
    by_cases h : fd.stage_u j < stageProb orate j
    · by_cases hd : createdAt + fd.delay j ≤ now
      · simp [h, hd, List.filterMap_cons, ih]
      · simp [h, hd, List.filterMap_cons, ih]
    · simp [h]

lemma mem_walkFrom {now createdAt : ℚ} {lid : String} {orate : ℚ}
    {fd : FunnelDraws} {idxs : List ℕ} {s : FunnelStage}
    (hs : s ∈ walkFrom now createdAt lid orate fd idxs) :
    ∃ j ∈ idxs, s = mkStageRec createdAt lid fd j := by
  induction idxs with
  | nil => exact absurd hs (List.not_mem_nil s)
  | cons j rest ih =>
    rw [walkFrom] at hs
    split at hs
    · rw [List.mem_append] at hs
      rcases hs with hs | hs
      · split at hs
        · rw [List.mem_singleton] at hs
          exact ⟨j, List.mem_cons_self _ _, hs⟩
        · exact absurd hs (List.not_mem_nil s)
      · obtain ⟨j', hj', hsj⟩ := ih hs
        exact ⟨j', List.mem_cons_of_mem _ hj', hsj⟩
    · exact absurd hs (List.not_mem_nil s)

/-- Claim C1 (amended): the per-lead funnel walk stops immediately *only*
at the first failed Bernoulli draw; a stage whose computed date is in the
future is skipped (no record emitted) but the walk continues to later
stages.  The emitted records are exactly the date-filtered stages of the
prefix ending at the first failed draw — a subsequence of the stage list
that need not be contiguous. -/
theorem funnel_walk_break_only_on_failed_draw (now : ℚ) (fo : ℕ → FunnelDraws)
    (contacted : List String) (gleads : List GLead) :
    generateFunnelStages now fo contacted gleads
      = gleads.enum.flatMap fun p =>
          if p.2.lead.lead_id ∈ contacted then
            if (fo p.1).entry_u > (if p.2.group = "test" then (7:ℚ)/10 else 13/20) then []
            else (([0, 1, 2, 3, 4] : List ℕ).takeWhile fun j =>
                decide ((fo p.1).stage_u j
                  < stageProb (if p.2.group = "test" then (3:ℚ)/5 else 27/50) j)).filterMap
              (fun j => if p.2.lead.created_at + (fo p.1).delay j ≤ now
                then some (mkStageRec p.2.lead.created_at p.2.lead.lead_id (fo p.1) j)
                else none)
          else [] := by
  rw [generateFunnelStages]
  congr 1
  funext p
  split_ifs <;>
    first
      | rfl
      | exact walkFrom_eq_takeWhile_filterMap _ _ _ _ _ _

/-- Funnel draws exhibiting a skipped-but-not-stopped walk: the Contacted
stage succeeds but is future-dated, the Qualified stage succeeds with an
earlier date. -/
def cexFunnelDraws : FunnelDraws :=
  { entry_u := 0
    stage_u := fun _ => 0
    delay := fun j => if j = 0 then 5 else if j = 1 then 1 else 10
    sid := fun _ => "s" }

/-- Claim C1 (counterexample): with a contacted lead created at time 100
and `now = 102`, the Contacted stage succeeds its Bernoulli draw but is
future-dated (105), yet the walk continues and emits Qualified (101) — a
later stage is present while an earlier one is absent, so the emitted
records are not a contiguous stage-list prefix and the walk did not stop
at the first future-dated stage. -/
theorem funnel_contiguity_counterexample :
    (generateFunnelStages 102 (fun _ => cexFunnelDraws) ["a"] [sampleGLeadA]).map
        (fun s => s.stage_name) = ["Qualified"] ∧
    "Contacted" ∉ (generateFunnelStages 102 (fun _ => cexFunnelDraws) ["a"] [sampleGLeadA]).map
        (fun s => s.stage_name) := by
  have heval : generateFunnelStages 102 (fun _ => cexFunnelDraws) ["a"] [sampleGLeadA]
      = [{ stage_id := "s", lead_id := "a", stage_name := "Qualified",
           stage_date := 101, stage_order := some 3 }] := by
    simp [generateFunnelStages, walkFrom, mkStageRec, stageProb, stageNameOf,
      cexFunnelDraws, sampleGLeadA, sampleLeadA, List.enum, List.enumFrom]
    norm_num [Int.floor_eq_iff]
  rw [heval]
  constructor
  · rfl
  · simp

/-- Claim C2 (amended): each emitted funnel stage record's date is the
lead's creation timestamp plus that stage's *own* exponential delay draw
(the running `current_date` of the source is never advanced), so delays do
not accumulate across stages. -/
theorem stage_dates_from_creation (now : ℚ) (fo : ℕ → FunnelDraws)
    (contacted : List String) (gleads : List GLead) :
    ∀ s ∈ generateFunnelStages now fo contacted gleads,
      ∃ p ∈ gleads.enum, ∃ j : ℕ,
        s.lead_id = p.2.lead.lead_id ∧ s.stage_name = stageNameOf j ∧
        s.stage_date = ⌊p.2.lead.created_at + (fo p.1).delay j⌋ ∧
        s.stage_order = some ((j : ℤ) + 2) := by
  intro s hs
  rw [generateFunnelStages] at hs
  simp only [List.mem_flatMap] at hs
  obtain ⟨p, hp, hin⟩ := hs
  refine ⟨p, hp, ?_⟩
  split_ifs at hin <;>
    first
      | exact absurd hin (List.not_mem_nil s)
      | (obtain ⟨j, _, rfl⟩ := mem_walkFrom hin
         exact ⟨j, rfl, rfl, rfl, rfl⟩)

/-- Funnel draws whose successive emitted stage dates decrease: delay 5
for Contacted, delay 1 for Qualified, then a failed draw. -/
def cex2FunnelDraws : FunnelDraws :=
  { entry_u := 0
    stage_u := fun j => if j ≤ 1 then 0 else 1
    delay := fun j => if j = 0 then 5 else 1
    sid := fun _ => "s" }

/-- Claim C2 (counterexample): with a contacted lead created at time 100
and `now = 200`, the walk emits Contacted dated 105 and then Qualified
dated 101 — the second stage's date is *not* the running date plus a
delay, and the emitted stage dates are not monotonically non-decreasing. -/
theorem stage_dates_counterexample :
    (generateFunnelStages 200 (fun _ => cex2FunnelDraws) ["a"] [sampleGLeadA]).map
        (fun s => s.stage_date) = [105, 101] ∧
    ¬ List.Chain' (· ≤ ·)
      ((generateFunnelStages 200 (fun _ => cex2FunnelDraws) ["a"] [sampleGLeadA]).map
        (fun s => s.stage_date)) := by
  have heval : generateFunnelStages 200 (fun _ => cex2FunnelDraws) ["a"] [sampleGLeadA]
      = [{ stage_id := "s", lead_id := "a", stage_name := "Contacted",
           stage_date := 105, stage_order := some 2 },
         { stage_id := "s", lead_id := "a", stage_name := "Qualified",
           stage_date := 101, stage_order := some 3 }] := by
    simp [generateFunnelStages, walkFrom, mkStageRec, stageProb, stageNameOf,
      cex2FunnelDraws, sampleGLeadA, sampleLeadA, List.enum, List.enumFrom]
    norm_num [Int.floor_eq_iff]
  rw [heval]
  constructor
  · rfl
  · simp [List.chain'_cons]

/-- The Contacted record of the non-monotone walk, used by the witness. -/
def cex2ContactedStage : FunnelStage :=
  { stage_id := "s", lead_id := "a", stage_name := "Contacted",
    stage_date := 105, stage_order := some 2 }

/-- With concrete data: the Contacted record emitted for the lead created
at 100 carries date `floor(100 + 5) = 105`, its own delay added to the
creation time, as the amended date rule states. -/
theorem stage_dates_from_creation_witness :
    cex2ContactedStage
      ∈ generateFunnelStages 200 (fun _ => cex2FunnelDraws) ["a"] [sampleGLeadA] ∧
    ∃ p ∈ ([sampleGLeadA]).enum, ∃ j : ℕ,
      cex2ContactedStage.lead_id = p.2.lead.lead_id ∧
      cex2ContactedStage.stage_name = stageNameOf j ∧
      cex2ContactedStage.stage_date
        = ⌊p.2.lead.created_at + ((fun _ => cex2FunnelDraws) p.1).delay j⌋ ∧
      cex2ContactedStage.stage_order = some ((j : ℤ) + 2) := by
  have hmem : cex2ContactedStage
      ∈ generateFunnelStages 200 (fun _ => cex2FunnelDraws) ["a"] [sampleGLeadA] := by
    simp [generateFunnelStages, walkFrom, mkStageRec, stageProb, stageNameOf,
      cex2FunnelDraws, cex2ContactedStage, sampleGLeadA, sampleLeadA,
      List.enum, List.enumFrom]
    norm_num [Int.floor_eq_iff]
  exact ⟨hmem, stage_dates_from_creation 200 (fun _ => cex2FunnelDraws) ["a"]
    [sampleGLeadA] _ hmem⟩

/-- Contact draws for a lead whose single drawn event is future-dated:
contacted succeeds, Poisson gives one event, offset draw yields 2 days. -/
def c10ContactDraws : ContactDraws :=
  { contact_u := 0, poisson := 1
    ev := fun _ => { eid := "e", off_u := 2, firstType_u := 0, type := "Email",
                     resp_u := 1, respType_u := 0 } }

/-- Funnel draws that emit just the Contacted stage with zero delay. -/
def c10FunnelDraws : FunnelDraws :=
  { entry_u := 0
    stage_u := fun j => if j = 0 then 0 else 1
    delay := fun _ => 0
    sid := fun _ => "s" }

/-- Claim C10: an execution in which a contacted lead's only drawn event
date falls after the current time, so the lead is a member of the
contacted-lead-identifier set (it is added on the contacted draw, before
events are emitted) yet ends up with zero contact events — and still
receives funnel stage records. -/
theorem contacted_lead_without_events :
    ∃ (now : ℚ) (co : ℕ → ContactDraws) (fo : ℕ → FunnelDraws)
      (gleads : List GLead) (lid : String),
      lid ∈ (generateContactEvents now co gleads).2 ∧
      (generateContactEvents now co gleads).1 = [] ∧
      (generateFunnelStages now fo (generateContactEvents now co gleads).2 gleads).filter
        (fun s => s.lead_id = lid) ≠ [] := by
  refine ⟨203/2, fun _ => c10ContactDraws, fun _ => c10FunnelDraws,
    [sampleGLeadA], "a", ?_, ?_, ?_⟩
  · simp [generateContactEvents, contactedOf, c10ContactDraws, sampleGLeadA,
      sampleLeadA, List.enum, List.enumFrom]
  · simp [generateContactEvents, eventsForLead, offsetDraw, randint,
      c10ContactDraws, sampleGLeadA, sampleLeadA, List.enum, List.enumFrom]
    norm_num
  · have hcontacted : (generateContactEvents (203/2) (fun _ => c10ContactDraws)
        [sampleGLeadA]).2 = ["a"] := by
      simp [generateContactEvents, contactedOf, c10ContactDraws, sampleGLeadA,
        sampleLeadA, List.enum, List.enumFrom]
    rw [hcontacted]
    have heval : generateFunnelStages (203/2) (fun _ => c10FunnelDraws) ["a"]
        [sampleGLeadA]
        = [{ stage_id := "s", lead_id := "a", stage_name := "Contacted",
             stage_date := 100, stage_order := some 2 }] := by
      simp [generateFunnelStages, walkFrom, mkStageRec, stageProb, stageNameOf,
        c10FunnelDraws, sampleGLeadA, sampleLeadA, List.enum, List.enumFrom]
      norm_num
    rw [heval]
    simp

lemma mem_uniqueFirst_aux :
    ∀ (n : ℕ) (l : List String), l.length ≤ n →
      ∀ x, x ∈ uniqueFirst l → x ∈ l := by
  intro n
  induction n with
  | zero =>
    intro l hl x hx
    rw [Nat.le_zero, List.length_eq_zero] at hl
    subst hl
    simp [uniqueFirst] at hx
  | succ n ih =>
    intro l hl x hx
    cases l with
    | nil => simp [uniqueFirst] at hx
    | cons a as =>
      rw [uniqueFirst] at hx
      rcases List.mem_cons.mp hx with rfl | hx'
      · exact List.mem_cons_self _ _
      · have hlen : (as.filter fun y => y ≠ a).length ≤ n :=
          le_trans (List.length_filter_le _ _) (Nat.le_of_succ_le_succ hl)
        exact List.mem_cons_of_mem _
          (List.mem_of_mem_filter (ih _ hlen x hx'))

lemma mem_uniqueFirst {x : String} {l : List String}
    (hx : x ∈ uniqueFirst l) : x ∈ l :=
  mem_uniqueFirst_aux l.length l le_rfl x hx

lemma uniqueFirst_nodup_aux :
    ∀ (n : ℕ) (l : List String), l.length ≤ n → (uniqueFirst l).Nodup := by
  intro n
  induction n with
  | zero =>
    intro l hl
    rw [Nat.le_zero, List.length_eq_zero] at hl
    subst hl
    simp [uniqueFirst]
  | succ n ih =>
    intro l hl
    cases l with
    | nil => simp [uniqueFirst]
    | cons a as =>
      rw [uniqueFirst]
      have hlen : (as.filter fun y => y ≠ a).length ≤ n :=
        le_trans (List.length_filter_le _ _) (Nat.le_of_succ_le_succ hl)
      refine List.nodup_cons.mpr ⟨?_, ih _ hlen⟩
      intro ha
      have := List.mem_filter.mp (mem_uniqueFirst ha)
      simp at this

lemma uniqueFirst_nodup (l : List String) : (uniqueFirst l).Nodup :=
  uniqueFirst_nodup_aux l.length l le_rfl

lemma leadId_mem_of_mem_filterMap_enumFrom
    {f : ℕ → String → Option Outcome}
    (hid : ∀ k x o, f k x = some o → o.lead_id = x)
    {n : ℕ} {l : List String} {o : Outcome}
    (ho : o ∈ (l.enumFrom n).filterMap fun p => f p.1 p.2) : o.lead_id ∈ l := by
  rw [List.mem_filterMap] at ho
  obtain ⟨p, hp, hf⟩ := ho
  rw [hid p.1 p.2 o hf]
  exact List.snd_mem_of_mem_enumFrom hp

lemma filter_filterMap_enumFrom
    {f : ℕ → String → Option Outcome}
    (hid : ∀ k x o, f k x = some o → o.lead_id = x) :
    ∀ (l : List String), l.Nodup → ∀ (n j : ℕ) (lid : String), l[j]? = some lid →
      (((l.enumFrom n).filterMap fun p => f p.1 p.2).filter
          fun o => decide (o.lead_id = lid))
        = (f (n + j) lid).toList := by
  intro l
  induction l with
  | nil =>
    intro _ n j lid hj
    simp at hj
  | cons x xs ih =>
    intro hnd n j lid hj
    have hxxs : x ∉ xs := (List.nodup_cons.mp hnd).1
    have hstep : (x :: xs).enumFrom n = (n, x) :: xs.enumFrom (n + 1) := rfl
    rw [hstep]
    cases j with
    | zero =>
      rw [List.getElem?_cons_zero, Option.some.injEq] at hj
      subst hj
      have hrest : ((xs.enumFrom (n + 1)).filterMap fun p => f p.1 p.2).filter
          (fun o => decide (o.lead_id = x)) = [] := by
        rw [List.filter_eq_nil_iff]
        intro o ho
        have := leadId_mem_of_mem_filterMap_enumFrom hid ho
        simp only [decide_eq_true_eq]
        intro hlid
        rw [hlid] at this
        exact hxxs this
      cases hfx : f n x with
      | none =>
        rw [List.filterMap_cons_none (f := fun p : ℕ × String => f p.1 p.2) hfx, hrest,
          Nat.add_zero, hfx]
        rfl
      | some o =>
        rw [List.filterMap_cons_some (f := fun p : ℕ × String => f p.1 p.2) hfx,
          List.filter_cons]
        have ho : o.lead_id = x := hid _ _ _ hfx
        rw [if_pos (by simpa using ho), hrest]
        simp [hfx]
    | succ j' =>
      have hmemlid : lid ∈ xs := List.getElem?_mem (by simpa using hj)
      have hne : x ≠ lid := fun h => hxxs (h ▸ hmemlid)
      have harith : n + 1 + j' = n + (j' + 1) := by omega
      cases hfx : f n x with
      | none =>
        rw [List.filterMap_cons_none (f := fun p : ℕ × String => f p.1 p.2) hfx, ← harith]
        exact ih (List.nodup_cons.mp hnd).2 (n + 1) j' lid (by simpa using hj)
      | some o =>
        rw [List.filterMap_cons_some (f := fun p : ℕ × String => f p.1 p.2) hfx,
          List.filter_cons]
        have ho : o.lead_id = x := hid _ _ _ hfx
        rw [if_neg (by simp [ho, hne])]
        rw [← harith]
        exact ih (List.nodup_cons.mp hnd).2 (n + 1) j' lid (by simpa using hj)

lemma wonOutcomeFor_spec {wo : ℕ → WonDraws} {gleads : List GLead}
    {stages : List FunnelStage} {k : ℕ} {lid : String} {o : Outcome}
    (h : wonOutcomeFor wo gleads stages k lid = some o) :
    o.lead_id = lid ∧ o.converted = true ∧ 1 ≤ o.days_to_close := by
  unfold wonOutcomeFor at h
  rw [Option.bind_eq_some] at h
  obtain ⟨g, _, h⟩ := h
  rw [Option.bind_eq_some] at h
  obtain ⟨st, _, h⟩ := h
  rw [Option.some.injEq] at h
  subst h
  exact ⟨rfl, rfl, le_max_left _ _⟩

lemma lostOutcomeFor_spec {now : ℚ} {lo : ℕ → LostDraws} {gleads : List GLead}
    {k : ℕ} {lid : String} {o : Outcome}
    (h : lostOutcomeFor now lo gleads k lid = some o) :
    o.lead_id = lid ∧ o.converted = false := by
  unfold lostOutcomeFor at h
  split at h
  · rw [Option.bind_eq_some] at h
    obtain ⟨g, _, h⟩ := h
    split at h
    · rw [Option.some.injEq] at h
      subst h
      exact ⟨rfl, rfl⟩
    · exact Option.noConfusion h
  · exact Option.noConfusion h

lemma mem_wonOutcomes {wo : ℕ → WonDraws} {gleads : List GLead}
    {stages : List FunnelStage} {o : Outcome}
    (ho : o ∈ wonOutcomes wo gleads stages) :
    o.converted = true ∧ 1 ≤ o.days_to_close ∧
      o.lead_id ∈ closedWonLeadIds stages := by
  rw [wonOutcomes, List.mem_filterMap] at ho
  obtain ⟨p, hp, hf⟩ := ho
  have hs := wonOutcomeFor_spec hf
  exact ⟨hs.2.1, hs.2.2, hs.1 ▸ List.snd_mem_of_mem_enum hp⟩

lemma mem_lostOutcomes {now : ℚ} {lo : ℕ → LostDraws} {gleads : List GLead}
    {stages : List FunnelStage} {o : Outcome}
    (ho : o ∈ lostOutcomes now lo gleads stages) :
    o.converted = false ∧ o.lead_id ∈ lostCandidates stages := by
  rw [lostOutcomes, List.mem_filterMap] at ho
  obtain ⟨p, hp, hf⟩ := ho
  have hs := lostOutcomeFor_spec hf
  exact ⟨hs.2, hs.1 ▸ List.snd_mem_of_mem_enum hp⟩

lemma exists_stage_of_mem_closedWon {stages : List FunnelStage} {lid : String}
    (h : lid ∈ closedWonLeadIds stages) :
    ∃ s ∈ stages, s.lead_id = lid ∧ s.stage_name = "Closed Won" := by
  rw [closedWonLeadIds] at h
  have h2 := mem_uniqueFirst h
  rw [List.mem_map] at h2
  obtain ⟨s, hs, rfl⟩ := h2
  rw [List.mem_filter] at hs
  exact ⟨s, hs.1, rfl, of_decide_eq_true hs.2⟩

lemma closedWonLeadIds_nodup (stages : List FunnelStage) :
    (closedWonLeadIds stages).Nodup :=
  uniqueFirst_nodup _

lemma lostCandidates_nodup (stages : List FunnelStage) :
    (lostCandidates stages).Nodup :=
  (uniqueFirst_nodup _).filter _

/-- Claim C5: every converted outcome belongs to a lead with a Closed Won
funnel stage; every Closed Won lead yields exactly one converted outcome
(given that each such lead exists in the lead table, as the pipeline
guarantees — the source would raise on a missing lead); and every
converted outcome's days-to-close is at least 1. -/
theorem converted_outcomes_spec (now : ℚ) (wo : ℕ → WonDraws)
    (lo : ℕ → LostDraws) (gleads : List GLead) (stages : List FunnelStage)
    (hlead : ∀ lid ∈ closedWonLeadIds stages,
      (gleads.find? fun g => g.lead.lead_id = lid).isSome) :
    (∀ o ∈ generateOutcomes now wo lo gleads stages, o.converted = true →
      ∃ s ∈ stages, s.lead_id = o.lead_id ∧ s.stage_name = "Closed Won") ∧
    (∀ o ∈ generateOutcomes now wo lo gleads stages, o.converted = true →
      1 ≤ o.days_to_close) ∧
    (∀ lid ∈ closedWonLeadIds stages,
      ((generateOutcomes now wo lo gleads stages).filter
        fun o => decide (o.lead_id = lid) && o.converted).length = 1) := by
  refine ⟨?_, ?_, ?_⟩
  · intro o ho hconv
    rw [generateOutcomes, List.mem_append] at ho
    rcases ho with ho | ho
    · exact exists_stage_of_mem_closedWon (mem_wonOutcomes ho).2.2
    · exact absurd hconv (by simp [(mem_lostOutcomes ho).1])
  · intro o ho hconv
    rw [generateOutcomes, List.mem_append] at ho
    rcases ho with ho | ho
    · exact (mem_wonOutcomes ho).2.1
    · exact absurd hconv (by simp [(mem_lostOutcomes ho).1])
  · intro lid hmem
    rw [generateOutcomes, List.filter_append, List.length_append]
    have hlost : (lostOutcomes now lo gleads stages).filter
        (fun o => decide (o.lead_id = lid) && o.converted) = [] := by
      rw [List.filter_eq_nil_iff]
      intro o ho
      simp [(mem_lostOutcomes ho).1]
    have hwon : (wonOutcomes wo gleads stages).filter
        (fun o => decide (o.lead_id = lid) && o.converted)
        = (wonOutcomes wo gleads stages).filter
            (fun o => decide (o.lead_id = lid)) := by
      apply List.filter_congr
      intro o ho
      simp [(mem_wonOutcomes ho).1]
    obtain ⟨j, hj⟩ := List.getElem?_of_mem hmem
    have hfilter := filter_filterMap_enumFrom
      (f := fun k lid => wonOutcomeFor wo gleads stages k lid)
      (fun k x o h => (wonOutcomeFor_spec h).1)
      (closedWonLeadIds stages) (closedWonLeadIds_nodup stages) 0 j lid hj
    have hsome : (wonOutcomeFor wo gleads stages (0 + j) lid).isSome := by
      unfold wonOutcomeFor
      obtain ⟨g, hg⟩ := Option.isSome_iff_exists.mp (hlead lid hmem)
      rw [hg, Option.some_bind]
      obtain ⟨s, hs, hs1, hs2⟩ := exists_stage_of_mem_closedWon hmem
      have hfind : (stages.find? fun s =>
          s.lead_id = lid ∧ s.stage_name = "Closed Won").isSome :=
        List.find?_isSome.mpr ⟨s, hs, by exact decide_eq_true ⟨hs1, hs2⟩⟩
      obtain ⟨st, hst⟩ := Option.isSome_iff_exists.mp hfind
      rw [hst, Option.some_bind]
      rfl
    rw [hlost, hwon]
    rw [show wonOutcomes wo gleads stages
        = ((closedWonLeadIds stages).enumFrom 0).filterMap
            (fun p => wonOutcomeFor wo gleads stages p.1 p.2) from rfl]
    rw [hfilter]
    obtain ⟨o, ho⟩ := Option.isSome_iff_exists.mp hsome
    rw [Nat.zero_add] at ho
    simp [ho]

/-- A Closed Won funnel stage for the sample lead, used by witnesses. -/
def sampleWonStage : FunnelStage :=
  { stage_id := "cw", lead_id := "a", stage_name := "Closed Won",
    stage_date := 150, stage_order := some 6 }

/-- Concrete won-outcome draws used by witnesses. -/
def sampleWonDraws : WonDraws := { oid := "w1", revMult := 1 }

/-- Concrete lost-outcome draws used by witnesses: the 40% draw succeeds
and `randint(30,120)` yields 30. -/
def sampleLostDraws : LostDraws := { oid := "o1", lost_u := 0, days_u := 0 }

/-- With concrete data: the one Closed Won lead receives exactly one
converted outcome. -/
theorem converted_outcomes_spec_witness :
    "a" ∈ closedWonLeadIds [sampleWonStage] ∧
    ((generateOutcomes 200 (fun _ => sampleWonDraws) (fun _ => sampleLostDraws)
        [sampleGLeadA] [sampleWonStage]).filter
      fun o => decide (o.lead_id = "a") && o.converted).length = 1 := by
  have hmem : "a" ∈ closedWonLeadIds [sampleWonStage] := by
    simp [closedWonLeadIds, uniqueFirst, sampleWonStage]
  have hlead : ∀ lid ∈ closedWonLeadIds [sampleWonStage],
      ([sampleGLeadA].find? fun g => g.lead.lead_id = lid).isSome := by
    intro lid hlid
    have : lid = "a" := by
      simpa [closedWonLeadIds, uniqueFirst, sampleWonStage] using hlid
    subst this
    simp [List.find?, sampleGLeadA, sampleLeadA]
  exact ⟨hmem, (converted_outcomes_spec 200 (fun _ => sampleWonDraws)
    (fun _ => sampleLostDraws) [sampleGLeadA] [sampleWonStage] hlead).2.2 "a" hmem⟩

/-- Claim C6: for the `j`-th funnel-entrant lead without a Closed Won
stage, the outcome stream carries exactly the formal lost record — with
`converted = 0`, zero revenue, dated a uniform 30-120 days after the
lead's creation — when the 40% draw succeeds and that date is not in the
future, and no outcome at all otherwise. -/
theorem lost_outcomes_spec (now : ℚ) (wo : ℕ → WonDraws) (lo : ℕ → LostDraws)
    (gleads : List GLead) (stages : List FunnelStage) (j : ℕ) (lid : String)
    (g : GLead) (hj : (lostCandidates stages)[j]? = some lid)
    (hg : gleads.find? (fun gl => gl.lead.lead_id = lid) = some g) :
    (generateOutcomes now wo lo gleads stages).filter
        (fun o => decide (o.lead_id = lid))
      = if (lo j).lost_u < 2/5 ∧
            g.lead.created_at + (randint 30 120 (lo j).days_u : ℚ) ≤ now
        then [{ outcome_id := (lo j).oid, lead_id := lid, converted := false,
                revenue := 0,
                outcome_date :=
                  some ⌊g.lead.created_at + (randint 30 120 (lo j).days_u : ℚ)⌋,
                days_to_close := randint 30 120 (lo j).days_u }]
        else [] := by
  have hlidmem : lid ∈ lostCandidates stages := List.getElem?_mem hj
  have hnotwon : lid ∉ closedWonLeadIds stages := by
    have := List.mem_filter.mp (by rw [lostCandidates] at hlidmem; exact hlidmem)
    exact of_decide_eq_true this.2
  rw [generateOutcomes, List.filter_append]
  have hwon : (wonOutcomes wo gleads stages).filter
      (fun o => decide (o.lead_id = lid)) = [] := by
    rw [List.filter_eq_nil_iff]
    intro o ho
    have := (mem_wonOutcomes ho).2.2
    simp only [decide_eq_true_eq]
    intro hlido
    rw [hlido] at this
    exact hnotwon this
  have hfilter := filter_filterMap_enumFrom
    (f := fun k lid => lostOutcomeFor now lo gleads k lid)
    (fun k x o h => (lostOutcomeFor_spec h).1)
    (lostCandidates stages) (lostCandidates_nodup stages) 0 j lid hj
  rw [hwon, List.nil_append]
  rw [show lostOutcomes now lo gleads stages
      = ((lostCandidates stages).enumFrom 0).filterMap
          (fun p => lostOutcomeFor now lo gleads p.1 p.2) from rfl]
  rw [hfilter]
  show (lostOutcomeFor now lo gleads (0 + j) lid).toList = _
  rw [Nat.zero_add, lostOutcomeFor, hg]
  by_cases h1 : (lo j).lost_u < 2/5
  · rw [if_pos h1, Option.some_bind]
    by_cases h2 : g.lead.created_at + (randint 30 120 (lo j).days_u : ℚ) ≤ now
    · rw [if_pos h2, if_pos ⟨h1, h2⟩]
      rfl
    · rw [if_neg h2, if_neg (fun hc => h2 hc.2)]
      rfl
  · rw [if_neg h1, if_neg (fun hc => h1 hc.1)]
    rfl

/-- With concrete data: a funnel-entrant lead with no Closed Won stage,
whose 40% draw succeeds and whose drawn date (creation + 30) is in the
past, receives exactly its formal lost outcome. -/
theorem lost_outcomes_spec_witness :
    (lostCandidates [cex2ContactedStage])[0]? = some "a" ∧
    ([sampleGLeadA].find? fun gl => gl.lead.lead_id = "a") = some sampleGLeadA ∧
    (generateOutcomes 200 (fun _ => sampleWonDraws) (fun _ => sampleLostDraws)
        [sampleGLeadA] [cex2ContactedStage]).filter
        (fun o => decide (o.lead_id = "a"))
      = if sampleLostDraws.lost_u < 2/5 ∧
            sampleGLeadA.lead.created_at
              + (randint 30 120 sampleLostDraws.days_u : ℚ) ≤ 200
        then [{ outcome_id := sampleLostDraws.oid, lead_id := "a",
                converted := false, revenue := 0,
                outcome_date := some ⌊sampleGLeadA.lead.created_at
                  + (randint 30 120 sampleLostDraws.days_u : ℚ)⌋,
                days_to_close := randint 30 120 sampleLostDraws.days_u }]
        else [] := by
  have hj : (lostCandidates [cex2ContactedStage])[0]? = some "a" := by
    simp [lostCandidates, closedWonLeadIds, uniqueFirst, cex2ContactedStage]
  have hg : ([sampleGLeadA].find? fun gl => gl.lead.lead_id = "a")
      = some sampleGLeadA := by
    simp [List.find?, sampleGLeadA, sampleLeadA]
  exact ⟨hj, hg, lost_outcomes_spec 200 (fun _ => sampleWonDraws)
    (fun _ => sampleLostDraws) [sampleGLeadA] [cex2ContactedStage] 0 "a"
    sampleGLeadA hj hg⟩

/-- Concrete seeded lead draws used by the determinism analysis. -/
def sampleLeadDraws : LeadDraws :=
  { created := 100, wk_u := 1, wk_pull := 0, size_u := 0, lognormal := 1,
    phone_u := 1, company := "C", email := "e@x", phone := "p",
    industry := "Tech", region := "EU", channel := "Web" }

/-- Quality-injector oracles that sample no rows at all. -/
def noLeadQuality : LeadQualityDraws :=
  { sTest := fun _ => false, vTest := fun _ => 0, sPhone := fun _ => false,
    vPhone := fun _ => 0, sRegion := fun _ => false, sCase := fun _ => false,
    sFuture := fun _ => false, vFuture := fun _ => 0,
    sOutlier := fun _ => false, vOutlier := fun _ => 0 }

/-- Contact-stream quality oracles that sample no rows. -/
def noContactQuality : ContactQualityDraws :=
  { sMissing := fun _ => false, sCase := fun _ => false, vCase := fun _ => 0,
    sFuture := fun _ => false, vFuture := fun _ => 0, sEmpty := fun _ => false }

/-- Funnel-stream quality oracles that sample no rows. -/
def noFunnelQuality : FunnelQualityDraws :=
  { sOrder := fun _ => false, vOrder := fun _ => 0, sName := fun _ => false,
    vName := fun _ => 0, sFuture := fun _ => false, vFuture := fun _ => 0,
    sMissing := fun _ => false }

/-- Outcome-stream quality oracles that sample no rows. -/
def noOutcomeQuality : OutcomeQualityDraws :=
  { sNeg := fun _ => false, sExtreme := fun _ => false, vExtreme := fun _ => 0,
    sNegDays := fun _ => false, sIncons := fun _ => false,
    sExtremeDays := fun _ => false, vExtremeDays := fun _ => 0,
    sMissingDate := fun _ => false }

/-- One fixed assignment of every seeded oracle stream: the values the
seeded `random` / `np.random` / Faker sources would produce for one fixed
seed.  The uuid entropy stream is *not* part of this bundle. -/
def sampleOracles : PipelineOracles :=
  { leadDraws := fun _ => sampleLeadDraws
    assign_u := fun _ => 0
    contact := fun _ => sampleContactDraws
    funnel := fun _ => c10FunnelDraws
    won := fun _ => sampleWonDraws
    lost := fun _ => sampleLostDraws
    qLeads := noLeadQuality
    qContacts := noContactQuality
    qFunnel := noFunnelQuality
    qOutcomes := noOutcomeQuality }

/-- Claim C3 (refuted): two runs of the full pipeline with *identical*
seeded draws (same seed, same population size, same clock) but distinct
`uuid.uuid4()` entropy — which the seeds do not control — produce
different output streams: every identifier field comes from the unseeded
uuid source, so the outputs are not byte-identical. -/
theorem pipeline_not_seed_deterministic :
    (generateCompleteDataset 200 (fun _ => "run1-id") sampleOracles 1).leads.map
        (fun g => g.lead.lead_id) = ["run1-id"] ∧
    (generateCompleteDataset 200 (fun _ => "run2-id") sampleOracles 1).leads.map
        (fun g => g.lead.lead_id) = ["run2-id"] ∧
    generateCompleteDataset 200 (fun _ => "run1-id") sampleOracles 1
      ≠ generateCompleteDataset 200 (fun _ => "run2-id") sampleOracles 1 := by
  have key : ∀ u : ℕ → String,
      (generateCompleteDataset 200 u sampleOracles 1).leads.map
        (fun g => g.lead.lead_id) = [u 0] := by
    intro u
    simp [generateCompleteDataset, generateLeads, mkLead, sampleLeadDraws,
      pyWeekday, sizeChoice, sizeMultiplierLead, randint, addTestGroupLogic,
      preTestAssigned, postTestAssigned, testStartDate,
      introduceDataQualityIssuesLeads, corruptLeadAt, sampleOracles,
      noLeadQuality, List.enum, List.enumFrom, List.range_succ]
    norm_num
  have h1 := key (fun _ => "run1-id")
  have h2 := key (fun _ => "run2-id")
  refine ⟨h1, h2, fun h => ?_⟩
  rw [h] at h1
  rw [h1] at h2
  exact absurd h2 (by simp)
